import Mathlib

/-!
Verification of statement-attribute processing (SemaStmtAttr.cpp).

Shallow embedding of the statement-attribute handlers: the fallthrough
validator (`handleFallThroughAttr`), the loop-hint argument parser
(`handleLoopHintAttr`), the cross-attribute compatibility checker
(`CheckForIncompatibleAttributes`) and the top-level driver
(`ProcessStmtAttributes`).  Source locations are modelled as naturals,
identifiers as strings, expressions by their (optional) integer
constant value, and possible null-pointer dereferences by an outer
`Option` on the result.
-/

/-- Statement classes relevant to the handlers: null statements, the
case/default labels (the `SwitchCase` subclasses), the four loop
statement classes, and a stand-in for any other class. -/
inductive StmtClass where
  | NullStmtClass
  | CaseStmtClass
  | DefaultStmtClass
  | DoStmtClass
  | ForStmtClass
  | CXXForRangeStmtClass
  | WhileStmtClass
  | DeclStmtClass
  | CompoundStmtClass
  | OtherStmtClass
deriving DecidableEq, Repr

/-- A statement: its class tag and its start source location
(`getLocStart`). -/
structure Stmt where
  stmtClass : StmtClass
  locStart : Nat
deriving DecidableEq, Repr

/-- The check `isa<NullStmt>(St)`. -/
def Stmt.isNullStmt (St : Stmt) : Bool :=
  St.stmtClass == .NullStmtClass

/-- The check `isa<SwitchCase>(St)`: case or default label. -/
def Stmt.isSwitchCase (St : Stmt) : Bool :=
  St.stmtClass == .CaseStmtClass || St.stmtClass == .DefaultStmtClass

/-- Whether `St` is one of the four loop statement classes accepted by the
loop-hint handler. -/
def Stmt.isLoopStmt (St : Stmt) : Bool :=
  St.stmtClass == .DoStmtClass || St.stmtClass == .ForStmtClass ||
  St.stmtClass == .CXXForRangeStmtClass || St.stmtClass == .WhileStmtClass

/-- A source range (`getBegin` / `getEnd`). -/
structure SourceRange where
  rangeBegin : Nat
  rangeEnd : Nat
deriving DecidableEq, Repr

/-- An `IdentifierLoc`: a location and a possibly-null
`IdentifierInfo*` (the identifier's spelling when non-null). -/
structure IdentifierLoc where
  loc : Nat
  ident : Option String
deriving DecidableEq, Repr

/-- An expression, abstracted to what the handler observes:
`isIntegerConstantExpr` either fails (`none`) or yields the evaluated
integer (`some n`, the `getSExtValue` result). -/
structure Expr where
  integerConstantValue : Option Int
deriving DecidableEq, Repr

/-- The attribute kinds distinguished by `ProcessStmtAttribute`:
unknown attributes, the two statement attributes, and any other
recognized (declaration) attribute. -/
inductive AttrKind where
  | UnknownAttribute
  | AT_FallThrough
  | AT_LoopHint
  | OtherDeclAttribute
deriving DecidableEq, Repr

/-- A raw attribute (`AttributeList` entry): kind, name location,
full range, spelling-list index, name, Microsoft-declspec flag, and
the three argument slots read by the loop-hint handler
(`getArgAsIdent(0)`, `getArgAsIdent(1)`, `getArgAsExpr(2)`); a `none`
slot models a null pointer returned for that argument. -/
structure AttributeList where
  kind : AttrKind
  loc : Nat
  range : SourceRange
  spellingListIndex : Nat
  name : String
  isDeclspecAttribute : Bool
  arg0 : Option IdentifierLoc
  arg1 : Option IdentifierLoc
  arg2 : Option Expr
deriving DecidableEq, Repr

/-- The six loop-hint options. -/
inductive OptionType where
  | Vectorize
  | VectorizeWidth
  | Interleave
  | InterleaveCount
  | Unroll
  | UnrollCount
deriving DecidableEq, Repr

/-- The name table `LoopHintAttr::getOptionName`. -/
def getOptionName : OptionType → String
  | .Vectorize => "vectorize"
  | .VectorizeWidth => "vectorize_width"
  | .Interleave => "interleave"
  | .InterleaveCount => "interleave_count"
  | .Unroll => "unroll"
  | .UnrollCount => "unroll_count"

/-- The printer `LoopHintAttr::getValueName`: a nonzero value prints as "enable",
zero as "disable". -/
def getValueName (v : Int) : String :=
  if v = 0 then "disable" else "enable"

/-- A validated attribute record: either a `FallThroughAttr` (range
and spelling-list index) or a `LoopHintAttr` (option, value, range). -/
inductive Attr where
  | fallThrough (range : SourceRange) (spellingListIndex : Nat)
  | loopHint (opt : OptionType) (value : Int) (range : SourceRange)
deriving DecidableEq, Repr

/-- A diagnostic-argument value: a string or an integer. -/
inductive DiagArg where
  | str (s : String)
  | int (n : Int)
deriving DecidableEq, Repr

/-- An emitted diagnostic: message key, emission location, and the
formatted arguments the code streams into it. -/
inductive Diag where
  | fallthroughWrongTarget (diagLoc : Nat) (stmtLocStart : Nat)
  | fallthroughInsertSemiFixit (diagLoc : Nat) (insertLoc : Nat) (insertText : String)
  | fallthroughOutsideSwitch (diagLoc : Nat)
  | loopPrecedesNonloop (diagLoc : Nat)
  | loopInvalidKeyword (diagLoc : Nat)
  | loopInvalidValue (diagLoc : Nat)
  | loopCompatibility (diagLoc : Nat) (duplicate : Bool)
      (name1 : String) (val1 : DiagArg) (name2 : String) (val2 : DiagArg)
  | unknownAttrIgnored (diagLoc : Nat) (msSpecific : Bool) (attrName : String)
  | attrInvalidOnStmt (diagLoc : Nat) (attrName : String) (stmtLocStart : Nat)
deriving DecidableEq, Repr

/-- The location a diagnostic is emitted at (the first argument of
`S.Diag`). -/
def Diag.emitLoc : Diag → Nat
  | .fallthroughWrongTarget l _ => l
  | .fallthroughInsertSemiFixit l _ _ => l
  | .fallthroughOutsideSwitch l => l
  | .loopPrecedesNonloop l => l
  | .loopInvalidKeyword l => l
  | .loopInvalidValue l => l
  | .loopCompatibility l _ _ _ _ _ => l
  | .unknownAttrIgnored l _ _ => l
  | .attrInvalidOnStmt l _ _ => l

/-- The ambient semantic-analysis context observed here: the current
function's switch-statement stack (only read) and the source-manager
query `getLocForEndOfToken`. -/
structure Sema where
  switchStack : List Nat
  locForEndOfToken : Nat → Nat

/-- Handler `handleFallThroughAttr`: validate a fallthrough attribute against
its target statement and the enclosing switch context.  Returns the
produced record (if any) plus the diagnostics emitted, in order. -/
def handleFallThroughAttr (S : Sema) (St : Stmt) (A : AttributeList)
    (Range : SourceRange) : Option Attr × List Diag :=
  if ¬ St.isNullStmt then
    let d := Diag.fallthroughWrongTarget A.range.rangeBegin St.locStart
    if St.isSwitchCase then
      let l := S.locForEndOfToken Range.rangeEnd
      (none, [d, Diag.fallthroughInsertSemiFixit l l ";"])
    else
      (none, [d])
  else if S.switchStack.isEmpty then
    (none, [Diag.fallthroughOutsideSwitch A.range.rangeBegin])
  else
    (some (Attr.fallThrough A.range A.spellingListIndex), [])

/-- The `StringSwitch` over the option spelling: exact match against
the six option names, defaulting to `Vectorize`. -/
def resolveOption (s : String) : OptionType :=
  if s = "vectorize" then .Vectorize
  else if s = "vectorize_width" then .VectorizeWidth
  else if s = "interleave" then .Interleave
  else if s = "interleave_count" then .InterleaveCount
  else if s = "unroll" then .Unroll
  else if s = "unroll_count" then .UnrollCount
  else .Vectorize

/-- The implicit conversion of the 64-bit `getSExtValue()` result to
the 32-bit `int ValueInt` in `(ValueInt = ValueAPS.getSExtValue()) < 1`:
two's-complement wrap into [-2^31, 2^31). -/
def toInt32 (n : Int) : Int :=
  (n + 2147483648) % 4294967296 - 2147483648

/-- Handler `handleLoopHintAttr`: parse a loop-hint attribute's arguments into
a record.  The outer `Option` is `none` exactly when the code would
dereference a null pointer: argument slot 0 or 1 absent (the code reads
`OptionLoc->Ident` and `ValueLoc->Loc` before any presence check), or
slot 0 present with a null identifier (`OptionInfo->getName()` is
reached under the assert "Attribute must have valid option info").  The
numeric value is narrowed to a 32-bit `int` before the `< 1` check and
the record stores the narrowed value. -/
def handleLoopHintAttr (S : Sema) (St : Stmt) (A : AttributeList) :
    Option (Option Attr × List Diag) :=
  if ¬ St.isLoopStmt then
    some (none, [Diag.loopPrecedesNonloop St.locStart])
  else
    match A.arg0, A.arg1 with
    | some optionLoc, some valueLoc =>
      match optionLoc.ident with
      | none => none
      | some optionName =>
        let valueInfo := valueLoc.ident
        let valueExpr := A.arg2
        let opt := resolveOption optionName
        if opt = .Vectorize ∨ opt = .Interleave ∨ opt = .Unroll then
          match valueInfo with
          | none => some (none, [Diag.loopInvalidKeyword valueLoc.loc])
          | some v =>
            if v = "disable" then
              some (some (Attr.loopHint opt 0 A.range), [])
            else if v = "enable" then
              some (some (Attr.loopHint opt 1 A.range), [])
            else
              some (none, [Diag.loopInvalidKeyword valueLoc.loc])
        else
          match valueExpr with
          | none => some (none, [Diag.loopInvalidValue valueLoc.loc])
          | some e =>
            match e.integerConstantValue with
            | none => some (none, [Diag.loopInvalidValue valueLoc.loc])
            | some n =>
              if toInt32 n < 1 then
                some (none, [Diag.loopInvalidValue valueLoc.loc])
              else
                some (some (Attr.loopHint opt (toInt32 n) A.range), [])
    | _, _ => none

/-- The per-category accumulator of `CheckForIncompatibleAttributes`. -/
structure CategoryState where
  enableOptionId : OptionType
  numericOptionId : OptionType
  enabledIsSet : Bool
  valueIsSet : Bool
  enabled : Bool
  value : Int
deriving DecidableEq, Repr

/-- The three category accumulators (vectorize, interleave, unroll). -/
structure Trackers where
  vec : CategoryState
  itl : CategoryState
  unr : CategoryState
deriving DecidableEq, Repr

/-- The initializer of the `Options` array. -/
def initTrackers : Trackers :=
  { vec := { enableOptionId := .Vectorize, numericOptionId := .VectorizeWidth,
             enabledIsSet := false, valueIsSet := false, enabled := false, value := 0 },
    itl := { enableOptionId := .Interleave, numericOptionId := .InterleaveCount,
             enabledIsSet := false, valueIsSet := false, enabled := false, value := 0 },
    unr := { enableOptionId := .Unroll, numericOptionId := .UnrollCount,
             enabledIsSet := false, valueIsSet := false, enabled := false, value := 0 } }

/-- The category switch: 0 for the vectorize family, 1 interleave,
2 unroll. -/
def category : OptionType → Nat
  | .Vectorize | .VectorizeWidth => 0
  | .Interleave | .InterleaveCount => 1
  | .Unroll | .UnrollCount => 2

/-- Read `Options[n]`. -/
def getCat (t : Trackers) : Nat → CategoryState
  | 0 => t.vec
  | 1 => t.itl
  | _ => t.unr

/-- Write `Options[n]`. -/
def setCat (t : Trackers) (n : Nat) (c : CategoryState) : Trackers :=
  if n = 0 then { t with vec := c }
  else if n = 1 then { t with itl := c }
  else { t with unr := c }

/-- The loop body of `CheckForIncompatibleAttributes` for a single
attribute: non-loop-hint attributes are skipped; a loop hint updates
its category state and may emit a duplicate diagnostic and then an
incompatibility diagnostic. -/
def checkStep (trk : Trackers) (a : Attr) : Trackers × List Diag :=
  match a with
  | .fallThrough _ _ => (trk, [])
  | .loopHint opt valueInt range =>
    let cat := category opt
    let cs := getCat trk cat
    let valueLoc := range.rangeEnd
    let stage1 : CategoryState × List Diag :=
      if opt = .Vectorize ∨ opt = .Interleave ∨ opt = .Unroll then
        let ds :=
          if cs.enabledIsSet then
            [Diag.loopCompatibility valueLoc true
              (getOptionName opt) (.str (getValueName (if cs.enabled then 1 else 0)))
              (getOptionName opt) (.str (getValueName valueInt))]
          else []
        ({ cs with enabledIsSet := true, enabled := valueInt != 0 }, ds)
      else
        let ds :=
          if cs.valueIsSet then
            [Diag.loopCompatibility valueLoc true
              (getOptionName opt) (.int cs.value)
              (getOptionName opt) (.int valueInt)]
          else []
        ({ cs with valueIsSet := true, value := valueInt }, ds)
    let cs1 := stage1.1
    let ds2 :=
      if cs1.enabledIsSet && !cs1.enabled && cs1.valueIsSet then
        [Diag.loopCompatibility valueLoc false
          (getOptionName cs1.enableOptionId)
          (.str (getValueName (if cs1.enabled then 1 else 0)))
          (getOptionName cs1.numericOptionId)
          (.int cs1.value)]
      else []
    (setCat trk cat cs1, stage1.2 ++ ds2)

/-- Fold `checkStep` over the attribute list, concatenating the
emitted diagnostics in order. -/
def checkFold (trk : Trackers) : List Attr → Trackers × List Diag
  | [] => (trk, [])
  | a :: rest =>
    let s := checkStep trk a
    let r := checkFold s.1 rest
    (r.1, s.2 ++ r.2)

/-- The pass `CheckForIncompatibleAttributes`: a pure diagnostic pass over the
validated attribute set.  It only reads the vector, so it hands the
set back unchanged alongside the diagnostics. -/
def CheckForIncompatibleAttributes (attrs : List Attr) : List Attr × List Diag :=
  (attrs, (checkFold initTrackers attrs).2)

/-- Dispatcher `ProcessStmtAttribute`: dispatch one raw attribute by kind. -/
def ProcessStmtAttribute (S : Sema) (St : Stmt) (A : AttributeList)
    (Range : SourceRange) : Option (Option Attr × List Diag) :=
  match A.kind with
  | .UnknownAttribute =>
    some (none, [Diag.unknownAttrIgnored A.loc A.isDeclspecAttribute A.name])
  | .AT_FallThrough => some (handleFallThroughAttr S St A Range)
  | .AT_LoopHint => handleLoopHintAttr S St A
  | .OtherDeclAttribute =>
    some (none, [Diag.attrInvalidOnStmt A.range.rangeBegin A.name St.locStart])

/-- The collection loop of `ProcessStmtAttributes`: process each raw
attribute in order, keeping the records of the successful ones. -/
def processAttrList (S : Sema) (St : Stmt) (Range : SourceRange) :
    List AttributeList → Option (List Attr × List Diag)
  | [] => some ([], [])
  | a :: rest =>
    match ProcessStmtAttribute S St a Range with
    | none => none
    | some (attrRes, ds) =>
      match processAttrList S St Range rest with
      | none => none
      | some (attrs, ds2) =>
        some ((match attrRes with
               | some x => x :: attrs
               | none => attrs), ds ++ ds2)

/-- The result of processing a statement's attributes: either the
original statement handed back unchanged, or a freshly allocated
attributed-statement node wrapping it. -/
inductive StmtResult where
  | orig (s : Stmt)
  | attributed (loc : Nat) (attrs : List Attr) (sub : Stmt)
deriving DecidableEq, Repr

/-- Modelled from the spec: `Sema::ActOnAttributedStmt` is declared in
this repository but its definition is not under src/ (only its caller
is).  Per the spec's AttributeBinder it allocates one attributed
statement node wrapping the original statement, anchored at the given
location and carrying the full ordered record set. -/
def ActOnAttributedStmt (loc : Nat) (attrs : List Attr) (s : Stmt) : StmtResult :=
  .attributed loc attrs s

/-- Driver `Sema::ProcessStmtAttributes`: process the raw list, run the
compatibility check, and bind the records (or pass the statement
through when no record survived). -/
def ProcessStmtAttributes (S : Sema) (St : Stmt) (attrList : List AttributeList)
    (Range : SourceRange) : Option (StmtResult × List Diag) :=
  match processAttrList S St Range attrList with
  | none => none
  | some (attrs, ds) =>
    let checked := CheckForIncompatibleAttributes attrs
    if checked.1.isEmpty then
      some (.orig St, ds ++ checked.2)
    else
      some (ActOnAttributedStmt Range.rangeBegin checked.1 St, ds ++ checked.2)

/-! Concrete fixtures used by the witness theorems. -/

/-- A context with no open switch statement. -/
def sema0 : Sema := ⟨[], fun n => n + 1⟩

/-- A context with one open switch statement. -/
def semaSw : Sema := ⟨[7], fun n => n + 1⟩

/-- A `for` loop starting at location 10. -/
def forStmt0 : Stmt := ⟨.ForStmtClass, 10⟩

/-- A `case` label starting at location 10. -/
def caseStmt0 : Stmt := ⟨.CaseStmtClass, 10⟩

/-- A declaration statement starting at location 10. -/
def declStmt0 : Stmt := ⟨.DeclStmtClass, 10⟩

/-- A null statement starting at location 10. -/
def nullStmt0 : Stmt := ⟨.NullStmtClass, 10⟩

/-- A fallthrough attribute spanning locations 0-3, spelling index 2. -/
def ftAttr0 : AttributeList :=
  { kind := .AT_FallThrough, loc := 0, range := ⟨0, 3⟩, spellingListIndex := 2,
    name := "fallthrough", isDeclspecAttribute := false,
    arg0 := none, arg1 := none, arg2 := none }

/-- A loop-hint attribute with option spelling `os` in slot 0 (at
location 1), value identifier `vi` in slot 1 (at location 5), and
value expression `e` in slot 2. -/
def mkLoopHint (os : String) (vi : Option String) (e : Option Expr) : AttributeList :=
  { kind := .AT_LoopHint, loc := 0, range := ⟨0, 9⟩, spellingListIndex := 0,
    name := "clang loop", isDeclspecAttribute := false,
    arg0 := some ⟨1, some os⟩, arg1 := some ⟨5, vi⟩, arg2 := e }

/-- A loop-hint attribute whose argument slot 1 is a null pointer. -/
def noArg1Attr0 : AttributeList :=
  { kind := .AT_LoopHint, loc := 0, range := ⟨0, 9⟩, spellingListIndex := 0,
    name := "clang loop", isDeclspecAttribute := false,
    arg0 := some ⟨1, some "vectorize"⟩, arg1 := none, arg2 := none }

/-- An unrecognized attribute named "frobnicate". -/
def unknownAttr0 : AttributeList :=
  { kind := .UnknownAttribute, loc := 0, range := ⟨0, 3⟩, spellingListIndex := 0,
    name := "frobnicate", isDeclspecAttribute := false,
    arg0 := none, arg1 := none, arg2 := none }

/-- Trackers after a `vectorize(enable)` hint: the vectorize category
has its enable/disable state set to enabled. -/
def trkVecSet : Trackers :=
  { initTrackers with vec :=
    { initTrackers.vec with enabledIsSet := true, enabled := true } }

/-- Trackers after a `vectorize_width(4)` hint: the vectorize category
has its numeric value set to 4. -/
def trkWidthSet : Trackers :=
  { initTrackers with vec :=
    { initTrackers.vec with valueIsSet := true, value := 4 } }

/-- A diagnostic is the "incompatible" variant of the loop-hint
compatibility message (duplicate flag false). -/
def Diag.isIncompatible : Diag → Bool
  | .loopCompatibility _ dup _ _ _ _ => !dup
  | _ => false

/-- C1: `handleFallThroughAttr` produces a fallthrough record (carrying
the attribute's range and spelling-list index) iff the target is a null
statement and the switch-stack is non-empty; on any violation it
produces no record. -/
theorem fallthrough_record_iff (S : Sema) (St : Stmt) (A : AttributeList)
    (Range : SourceRange) :
    (handleFallThroughAttr S St A Range).1 =
      (if St.stmtClass = .NullStmtClass ∧ S.switchStack ≠ [] then
        some (Attr.fallThrough A.range A.spellingListIndex)
      else none) := by
  rcases St with ⟨c, l⟩
  rcases S with ⟨ss, f⟩
  cases c <;> cases ss <;>
    simp [handleFallThroughAttr, Stmt.isNullStmt, Stmt.isSwitchCase, List.isEmpty]

/-- C2: on `vectorize(disable)` together with `vectorize_width(4)`, in
either order, the compatibility check keeps both records and emits
exactly one incompatible diagnostic naming vectorize/disable and
vectorize_width/4. -/
theorem vectorize_disable_width_incompatible (r1 r2 : SourceRange) :
    CheckForIncompatibleAttributes
        [Attr.loopHint .Vectorize 0 r1, Attr.loopHint .VectorizeWidth 4 r2] =
      ([Attr.loopHint .Vectorize 0 r1, Attr.loopHint .VectorizeWidth 4 r2],
       [Diag.loopCompatibility r2.rangeEnd false "vectorize" (.str "disable")
          "vectorize_width" (.int 4)]) ∧
    CheckForIncompatibleAttributes
        [Attr.loopHint .VectorizeWidth 4 r2, Attr.loopHint .Vectorize 0 r1] =
      ([Attr.loopHint .VectorizeWidth 4 r2, Attr.loopHint .Vectorize 0 r1],
       [Diag.loopCompatibility r1.rangeEnd false "vectorize" (.str "disable")
          "vectorize_width" (.int 4)]) :=
  ⟨rfl, rfl⟩

/-- C8: the compatibility check is a pure read: it hands the record
set back unchanged, and running it again on that unchanged set yields
the identical attrs and diagnostics — its output is a function of the
input set alone. -/
theorem compatibility_check_pure (attrs : List Attr) :
    (CheckForIncompatibleAttributes attrs).1 = attrs ∧
    CheckForIncompatibleAttributes (CheckForIncompatibleAttributes attrs).1 =
      CheckForIncompatibleAttributes attrs :=
  ⟨rfl, rfl⟩

/-- C9 counterexample: the wrong-target error is NOT emitted at the
target statement's start location (here 10); it is emitted at the
attribute range's begin (here 0), with the statement start passed as a
format argument. -/
theorem fallthrough_wrong_target_loc_counterexample :
    declStmt0.locStart = 10 ∧
    (handleFallThroughAttr sema0 declStmt0 ftAttr0 ⟨0, 7⟩).2 =
      [Diag.fallthroughWrongTarget 0 10] ∧
    (Diag.fallthroughWrongTarget 0 10).emitLoc ≠ declStmt0.locStart :=
  ⟨rfl, rfl, by decide⟩

/-- C9 amended: when the target is not a null statement, the
wrong-target error is emitted at the attribute range's begin location
carrying the target statement's start location as an argument, no
record is produced, and iff the target is a case/default label a note
with a fix-it inserting ";" follows, emitted at the end-of-token
position after the processed range's end. -/
theorem fallthrough_wrong_target_diags (S : Sema) (St : Stmt) (A : AttributeList)
    (Range : SourceRange) (h : St.stmtClass ≠ .NullStmtClass) :
    (handleFallThroughAttr S St A Range).1 = none ∧
    (handleFallThroughAttr S St A Range).2 =
      Diag.fallthroughWrongTarget A.range.rangeBegin St.locStart ::
      (if St.isSwitchCase then
        [Diag.fallthroughInsertSemiFixit (S.locForEndOfToken Range.rangeEnd)
          (S.locForEndOfToken Range.rangeEnd) ";"]
      else []) := by
  have hb : St.isNullStmt = false := by
    simp [Stmt.isNullStmt, h]
  unfold handleFallThroughAttr
  rw [hb]
  cases hc : St.isSwitchCase <;> simp [hc]

/-- Witness for the amended C9 at a case label. -/
theorem fallthrough_wrong_target_diags_witness :
    (handleFallThroughAttr sema0 caseStmt0 ftAttr0 ⟨0, 7⟩).2 =
      [Diag.fallthroughWrongTarget 0 10, Diag.fallthroughInsertSemiFixit 8 8 ";"] := by
  have h := fallthrough_wrong_target_diags sema0 caseStmt0 ftAttr0 ⟨0, 7⟩ (by decide)
  exact h.2.trans (by rfl)

/-- C3: option resolution exact-matches the six option names, and any
other spelling resolves to Vectorize with no diagnostic — in
particular the handler then succeeds silently on a valid value. -/
theorem loop_hint_option_resolution (s : String)
    (h : s ∉ ["vectorize", "vectorize_width", "interleave", "interleave_count",
              "unroll", "unroll_count"]) :
    resolveOption s = .Vectorize ∧
    resolveOption "vectorize" = .Vectorize ∧
    resolveOption "vectorize_width" = .VectorizeWidth ∧
    resolveOption "interleave" = .Interleave ∧
    resolveOption "interleave_count" = .InterleaveCount ∧
    resolveOption "unroll" = .Unroll ∧
    resolveOption "unroll_count" = .UnrollCount ∧
    (∀ (S : Sema) (St : Stmt) (A : AttributeList) (ol vl : IdentifierLoc),
      St.isLoopStmt = true → A.arg0 = some ol → ol.ident = some s →
      A.arg1 = some vl → vl.ident = some "enable" →
      handleLoopHintAttr S St A = some (some (Attr.loopHint .Vectorize 1 A.range), [])) := by
  simp only [List.mem_cons, List.not_mem_nil, or_false, not_or] at h
  obtain ⟨h1, h2, h3, h4, h5, h6⟩ := h
  have hres : resolveOption s = .Vectorize := by
    simp [resolveOption, h1, h2, h3, h4, h5, h6]
  refine ⟨hres, rfl, rfl, rfl, rfl, rfl, rfl, ?_⟩
  intro S St A ol vl hSt h0 hoi hv1 hvi
  unfold handleLoopHintAttr
  rw [h0, hv1]
  simp only [hSt, not_true_eq_false, if_false, Bool.not_eq_true]
  rw [hoi]
  simp [hres, hvi]

/-- Witness for C3: the unrecognized spelling "foo" resolves to
Vectorize, and a `foo(enable)` hint on a for loop yields a Vectorize
record with no diagnostic. -/
theorem loop_hint_option_resolution_witness :
    resolveOption "foo" = .Vectorize ∧
    handleLoopHintAttr semaSw forStmt0 (mkLoopHint "foo" (some "enable") none) =
      some (some (Attr.loopHint .Vectorize 1 ⟨0, 9⟩), []) := by
  have h := loop_hint_option_resolution "foo" (by decide)
  exact ⟨h.1, h.2.2.2.2.2.2.2 semaSw forStmt0 (mkLoopHint "foo" (some "enable") none)
    ⟨1, some "foo"⟩ ⟨5, some "enable"⟩ rfl rfl rfl rfl rfl⟩

/-- C4 counterexample: for `unroll_count(2147483648)` the value
expression is present, is an integer constant, and its value is at
least 1, yet the handler — narrowing to a 32-bit `int`, which wraps
the value to -2^31 — emits the invalid-value error and produces no
record, against the claim's "value >= 1 suffices". -/
theorem loop_hint_value_narrowing_counterexample :
    (1 : Int) ≤ 2147483648 ∧
    (mkLoopHint "unroll_count" none (some ⟨some 2147483648⟩)).arg2 =
      some ⟨some 2147483648⟩ ∧
    handleLoopHintAttr semaSw forStmt0
        (mkLoopHint "unroll_count" none (some ⟨some 2147483648⟩)) =
      some (none, [Diag.loopInvalidValue 5]) :=
  ⟨by decide, rfl, by decide⟩

/-- C4 amended: loop-hint value resolution.  For a boolean-form option
the value identifier must be exactly "enable" (record value 1) or
"disable" (record value 0), else the invalid-keyword error is emitted
(at the value slot's location) and no record is produced; for a
numeric-form option the value expression must be present, be an
integer constant expression, and its value narrowed to a 32-bit `int`
must be at least 1 — the record then stores the narrowed value — else
the invalid-value error is emitted and no record is produced
(non-constant expressions are rejected, not deferred). -/
theorem loop_hint_value_resolution (S : Sema) (St : Stmt) (A : AttributeList)
    (ol vl : IdentifierLoc) (os : String)
    (hSt : St.isLoopStmt = true) (h0 : A.arg0 = some ol) (hoi : ol.ident = some os)
    (h1 : A.arg1 = some vl) :
    handleLoopHintAttr S St A = some (
      if resolveOption os = .Vectorize ∨ resolveOption os = .Interleave ∨
          resolveOption os = .Unroll then
        match vl.ident with
        | none => (none, [Diag.loopInvalidKeyword vl.loc])
        | some v =>
          if v = "enable" then (some (Attr.loopHint (resolveOption os) 1 A.range), [])
          else if v = "disable" then
            (some (Attr.loopHint (resolveOption os) 0 A.range), [])
          else (none, [Diag.loopInvalidKeyword vl.loc])
      else
        match A.arg2 with
        | none => (none, [Diag.loopInvalidValue vl.loc])
        | some e =>
          match e.integerConstantValue with
          | none => (none, [Diag.loopInvalidValue vl.loc])
          | some n =>
            if 1 ≤ toInt32 n then
              (some (Attr.loopHint (resolveOption os) (toInt32 n) A.range), [])
            else (none, [Diag.loopInvalidValue vl.loc])) := by
  unfold handleLoopHintAttr
  rw [h0, h1]
  simp only [hSt, not_true_eq_false, if_false, Bool.not_eq_true]
  rw [hoi]
  simp only []
  by_cases hb : resolveOption os = .Vectorize ∨ resolveOption os = .Interleave ∨
      resolveOption os = .Unroll
  · rw [if_pos hb, if_pos hb]
    cases hvi : vl.ident with
    | none => rfl
    | some v =>
      simp only []
      by_cases hd : v = "disable"
      · subst hd
        rw [if_pos rfl, if_neg (by decide), if_pos rfl]
      · by_cases he : v = "enable"
        · subst he
          rw [if_neg (by decide), if_pos rfl, if_pos rfl]
        · rw [if_neg hd, if_neg he, if_neg he, if_neg hd]
  · rw [if_neg hb, if_neg hb]
    cases harg2 : A.arg2 with
    | none => rfl
    | some e =>
      simp only []
      cases hice : e.integerConstantValue with
      | none => rfl
      | some n =>
        simp only []
        by_cases hn : toInt32 n < 1
        · rw [if_pos hn, if_neg (by omega)]
        · rw [if_neg hn, if_pos (by omega)]

/-- Witness for C4: `unroll_count(0)` is rejected with the
invalid-value error at the value slot's location and produces no
record. -/
theorem loop_hint_value_resolution_witness :
    handleLoopHintAttr semaSw forStmt0 (mkLoopHint "unroll_count" none (some ⟨some 0⟩)) =
      some (none, [Diag.loopInvalidValue 5]) := by
  have h := loop_hint_value_resolution semaSw forStmt0
    (mkLoopHint "unroll_count" none (some ⟨some 0⟩)) ⟨1, some "unroll_count"⟩
    ⟨5, none⟩ "unroll_count" rfl rfl rfl rfl
  exact h.trans (by rfl)

/-- C5: when a boolean-form record arrives for a category whose
enable/disable state is already set, the step first emits a duplicate
diagnostic comparing the stored value against the new one (both with
the option's name) and then overwrites the stored state with the new
value — last write wins, the record is flagged but kept and the
numeric side of the tracker is untouched; the numeric-form case is
symmetric on `valueIsSet`/`value`. -/
theorem duplicate_hint_diag_and_overwrite (trk : Trackers) (opt : OptionType)
    (v : Int) (r : SourceRange) :
    ((opt = .Vectorize ∨ opt = .Interleave ∨ opt = .Unroll) →
      (getCat trk (category opt)).enabledIsSet = true →
      ((checkStep trk (Attr.loopHint opt v r)).2.head? =
        some (Diag.loopCompatibility r.rangeEnd true
          (getOptionName opt)
          (.str (getValueName (if (getCat trk (category opt)).enabled then 1 else 0)))
          (getOptionName opt) (.str (getValueName v))) ∧
       (getCat (checkStep trk (Attr.loopHint opt v r)).1 (category opt)).enabledIsSet
         = true ∧
       (getCat (checkStep trk (Attr.loopHint opt v r)).1 (category opt)).enabled
         = (v != 0) ∧
       (getCat (checkStep trk (Attr.loopHint opt v r)).1 (category opt)).valueIsSet
         = (getCat trk (category opt)).valueIsSet ∧
       (getCat (checkStep trk (Attr.loopHint opt v r)).1 (category opt)).value
         = (getCat trk (category opt)).value)) ∧
    ((opt = .VectorizeWidth ∨ opt = .InterleaveCount ∨ opt = .UnrollCount) →
      (getCat trk (category opt)).valueIsSet = true →
      ((checkStep trk (Attr.loopHint opt v r)).2.head? =
        some (Diag.loopCompatibility r.rangeEnd true
          (getOptionName opt) (.int (getCat trk (category opt)).value)
          (getOptionName opt) (.int v)) ∧
       (getCat (checkStep trk (Attr.loopHint opt v r)).1 (category opt)).valueIsSet
         = true ∧
       (getCat (checkStep trk (Attr.loopHint opt v r)).1 (category opt)).value = v ∧
       (getCat (checkStep trk (Attr.loopHint opt v r)).1 (category opt)).enabledIsSet
         = (getCat trk (category opt)).enabledIsSet ∧
       (getCat (checkStep trk (Attr.loopHint opt v r)).1 (category opt)).enabled
         = (getCat trk (category opt)).enabled)) := by
  cases opt <;>
    constructor <;>
    intro hopt hset <;>
    simp_all [checkStep, category, getCat, setCat]

/-- Witness for C5: a second `vectorize(disable)` after a
`vectorize(enable)` yields the duplicate diagnostic enable-vs-disable
and the stored state becomes disabled. -/
theorem duplicate_hint_diag_and_overwrite_witness :
    (checkStep trkVecSet (Attr.loopHint .Vectorize 0 ⟨1, 2⟩)).2.head? =
      some (Diag.loopCompatibility 2 true "vectorize" (.str "enable")
        "vectorize" (.str "disable")) ∧
    (getCat (checkStep trkVecSet (Attr.loopHint .Vectorize 0 ⟨1, 2⟩)).1 0).enabled
      = false := by
  have h := (duplicate_hint_diag_and_overwrite trkVecSet .Vectorize 0 ⟨1, 2⟩).1
    (Or.inl rfl) rfl
  exact ⟨h.1.trans (by rfl), h.2.2.1.trans (by rfl)⟩

/-- C6: the incompatible-combination condition is re-evaluated after
every processed loop-hint record — each step emits the incompatible
diagnostic exactly once iff the condition holds on the category state
after that step — so it fires more than once when a duplicate of the
numeric hint arrives while the disabling hint already holds: the run
vectorize(disable), vectorize_width(4), vectorize_width(8) emits two
incompatible diagnostics. -/
theorem incompatible_condition_reevaluated :
    (∀ (trk : Trackers) (opt : OptionType) (v : Int) (r : SourceRange),
      ((checkStep trk (Attr.loopHint opt v r)).2.countP (fun d => d.isIncompatible)) =
        (if ((getCat (checkStep trk (Attr.loopHint opt v r)).1 (category opt)).enabledIsSet
              && !(getCat (checkStep trk (Attr.loopHint opt v r)).1 (category opt)).enabled
              && (getCat (checkStep trk (Attr.loopHint opt v r)).1 (category opt)).valueIsSet)
            = true
         then 1 else 0)) ∧
    (∀ r1 r2 r3 : SourceRange,
      ((CheckForIncompatibleAttributes
          [Attr.loopHint .Vectorize 0 r1, Attr.loopHint .VectorizeWidth 4 r2,
           Attr.loopHint .VectorizeWidth 8 r3]).2.countP
        (fun d => d.isIncompatible)) = 2) := by
  constructor
  · intro trk opt v r
    cases opt <;>
      simp only [checkStep, category, getCat, setCat] <;>
      split <;>
      simp_all [Diag.isIncompatible, List.countP_cons, List.countP_nil,
        List.countP_append]
    any_goals (split <;> simp [List.countP_cons, List.countP_nil])
    any_goals (split <;> simp [List.countP_cons, List.countP_nil])
  · intro r1 r2 r3
    rfl

/-- C7: when the validated set is empty (including when every raw
attribute failed validation) `ProcessStmtAttributes` hands back the
original statement with no wrapper; when it is non-empty it returns a
single attributed-statement node wrapping the original statement,
anchored at the start of the attribute list's range and carrying the
full ordered record set. -/
theorem process_stmt_attributes_binding (S : Sema) (St : Stmt)
    (attrList : List AttributeList) (Range : SourceRange)
    (attrs : List Attr) (ds : List Diag)
    (h : processAttrList S St Range attrList = some (attrs, ds)) :
    ProcessStmtAttributes S St attrList Range =
      some ((if attrs = [] then StmtResult.orig St
             else StmtResult.attributed Range.rangeBegin attrs St),
            ds ++ (CheckForIncompatibleAttributes attrs).2) := by
  unfold ProcessStmtAttributes
  rw [h]
  cases attrs <;>
    simp [CheckForIncompatibleAttributes, ActOnAttributedStmt, List.isEmpty]

/-- Witness for C7: a lone unrecognized attribute fails validation, so
the statement comes back unwrapped; a lone valid loop hint produces a
wrapper anchored at the processed range's begin. -/
theorem process_stmt_attributes_binding_witness :
    ProcessStmtAttributes semaSw declStmt0 [unknownAttr0] ⟨0, 7⟩ =
      some (StmtResult.orig declStmt0,
        [Diag.unknownAttrIgnored 0 false "frobnicate"]) ∧
    ProcessStmtAttributes semaSw forStmt0 [mkLoopHint "unroll" (some "enable") none]
        ⟨0, 7⟩ =
      some (StmtResult.attributed 0 [Attr.loopHint .Unroll 1 ⟨0, 9⟩] forStmt0, []) := by
  have h1 := process_stmt_attributes_binding semaSw declStmt0 [unknownAttr0] ⟨0, 7⟩
    [] [Diag.unknownAttrIgnored 0 false "frobnicate"] rfl
  have h2 := process_stmt_attributes_binding semaSw forStmt0
    [mkLoopHint "unroll" (some "enable") none] ⟨0, 7⟩
    [Attr.loopHint .Unroll 1 ⟨0, 9⟩] [] rfl
  exact ⟨h1.trans (by rfl), h2.trans (by rfl)⟩

/-- C10: the loop-hint handler dereferences argument slots 0 and 1
before any presence check, so on a loop statement it is safe iff those
slots are present (slot 0 carrying an option identifier, slot 1
possibly carrying none — the case the invalid-keyword branch handles):
under that precondition the handler never hits a null dereference, and
with either slot absent it does. -/
theorem loop_hint_arg_slot_safety :
    (∀ (S : Sema) (St : Stmt) (A : AttributeList) (ol vl : IdentifierLoc)
        (os : String),
      St.isLoopStmt = true → A.arg0 = some ol → ol.ident = some os →
      A.arg1 = some vl → (handleLoopHintAttr S St A).isSome = true) ∧
    (∀ (S : Sema) (St : Stmt) (A : AttributeList),
      St.isLoopStmt = true → A.arg0 = none → handleLoopHintAttr S St A = none) ∧
    (∀ (S : Sema) (St : Stmt) (A : AttributeList),
      St.isLoopStmt = true → A.arg1 = none → handleLoopHintAttr S St A = none) := by
  refine ⟨?_, ?_, ?_⟩
  · intro S St A ol vl os hSt h0 hoi h1
    unfold handleLoopHintAttr
    rw [h0, h1]
    simp only [hSt, not_true_eq_false, if_false, Bool.not_eq_true]
    rw [hoi]
    simp only []
    split
    · cases hvi : vl.ident with
      | none => rfl
      | some v =>
        simp only []
        split
        · rfl
        · split <;> rfl
    · cases harg2 : A.arg2 with
      | none => rfl
      | some e =>
        simp only []
        cases hice : e.integerConstantValue with
        | none => rfl
        | some n =>
          simp only []
          split <;> rfl
  · intro S St A hSt h0
    unfold handleLoopHintAttr
    rw [h0]
    simp only [hSt, not_true_eq_false, if_false, Bool.not_eq_true]
  · intro S St A hSt h1
    unfold handleLoopHintAttr
    rw [h1]
    simp only [hSt, not_true_eq_false, if_false, Bool.not_eq_true]
    cases A.arg0 <;> rfl

/-- Witness for C10: with both slots present the handler returns a
result; with slot 1 a null pointer, on the same loop statement, it hits
the modelled null dereference. -/
theorem loop_hint_arg_slot_safety_witness :
    (handleLoopHintAttr semaSw forStmt0
      (mkLoopHint "vectorize" (some "enable") none)).isSome = true ∧
    handleLoopHintAttr semaSw forStmt0 noArg1Attr0 = none := by
  exact ⟨loop_hint_arg_slot_safety.1 semaSw forStmt0
      (mkLoopHint "vectorize" (some "enable") none)
      ⟨1, some "vectorize"⟩ ⟨5, some "enable"⟩ "vectorize" rfl rfl rfl rfl,
    loop_hint_arg_slot_safety.2.2 semaSw forStmt0 noArg1Attr0 rfl rfl⟩
